import Mathlib

/-!
# Verification of `script/make_icons.py` (o0x1024/aqiu)

A shallow embedding of the icon-export routine `generate_tauri_icons`.
The script, given a source image path and an output directory:
1. returns early with an error message if the source path does not exist;
2. creates the output directory if it is absent;
3. opens the image and converts it to RGBA, returning early on failure;
4. writes four generic PNGs and ten Windows tile/store PNGs, each resized
   square with the LANCZOS filter;
5. writes `icon.ico`, requesting the fixed size list (the saved
   container embeds the requested sizes that fit the source raster,
   per `icoEmbeddedSizes`);
6. writes `icon.icns` only when both dimensions are at least 512,
   otherwise prints a warning.

Pillow images are modelled by their width, height and pixel mode, with a
provenance field recording the resampling filter that produced a resized
copy.  Filesystem effects are modelled by an explicit effect record
(`RunResult`) and an association-list filesystem (`FS`) on which the
effects can be replayed.
-/

/-- The PIL resampling filters (`PIL.Image.Resampling`). -/
inductive Resampling where
  | NEAREST
  | BOX
  | BILINEAR
  | HAMMING
  | BICUBIC
  | LANCZOS
deriving DecidableEq, Repr

/-- A PIL image: width, height, pixel mode (e.g. `"RGBA"`), and, as
provenance, the resampling filter that produced it (`none` for an image
freshly loaded from disk). -/
structure Image where
  width : Nat
  height : Nat
  mode : String
  resampledWith : Option Resampling
deriving DecidableEq, Repr

/-- `img.size` - Pillow reports `(width, height)`. -/
def Image.size (img : Image) : Nat × Nat :=
  (img.width, img.height)

/-- `img.convert(mode)`: pixel-format conversion keeps the dimensions. -/
def Image.convert (img : Image) (mode : String) : Image :=
  { img with mode := mode }

/-- `img.resize(size, resample)`: the result has exactly the requested
dimensions, inherits the pixel mode, and records the filter used. -/
def Image.resize (img : Image) (size : Nat × Nat) (resample : Resampling) : Image :=
  { width := size.1, height := size.2, mode := img.mode, resampledWith := some resample }

/-- Contents of a file, at the granularity the script observes: PNGs and
the two icon containers record the raster they were saved from (the ICO
additionally the *requested* size list passed to `save`; the sizes the
container actually embeds on disk are `icoEmbeddedSizes` of the raster
and that request, since Pillow drops requested sizes that do not fit);
`rawFile` stands for a pre-existing file, carrying only what it decodes
to. -/
inductive FileData where
  | pngFile (i : Image)
  | icoFile (i : Image) (sizes : List (Nat × Nat))
  | icnsFile (i : Image)
  | rawFile (decoded : Option Image)
deriving DecidableEq, Repr

/-- What `PIL.Image.open` yields on a file with the given contents
(`none` = the open/convert raises). -/
def FileData.decode : FileData → Option Image
  | .pngFile i => some i
  | .icoFile i _ => some i
  | .icnsFile i => some i
  | .rawFile d => d

/-- The pixel mode of the raster a generated file was saved from. -/
def FileData.embeddedMode : FileData → Option String
  | .pngFile i => some i.mode
  | .icoFile i _ => some i.mode
  | .icnsFile i => some i.mode
  | .rawFile _ => none

/-- The console messages the script prints, kept structured. -/
inductive Msg where
  | errMissingSource (path : String)
  | dirCreated (dir : String)
  | loadedSource (path : String) (size : Nat × Nat)
  | errCannotOpen
  | generatingPngs
  | generatedFile (filename : String)
  | generatingTiles
  | generatingIco
  | generatedIco (sizes : List (Nat × Nat))
  | generatingIcns
  | generatedIcns
  | warnSourceSmall
  | allDone (dir : String)
deriving DecidableEq, Repr

/-- How a call to `generate_tauri_icons` ends: the two early `return`s
and the normal completion.  Every run ends in exactly one of these;
no exception escapes the function. -/
inductive Outcome where
  | missingSource
  | decodeFailure
  | completed
deriving DecidableEq, Repr

/-- The observable effects of one call: how it ended, what it printed,
whether it created the output directory, and the files it wrote
(path, contents), in order. -/
structure RunResult where
  outcome : Outcome
  messages : List Msg
  createdDir : Option String
  writes : List (String × FileData)
deriving DecidableEq, Repr

/-- `os.path.join` on the script's inputs. -/
def osPathJoin (dir name : String) : String :=
  dir ++ "/" ++ name

/-- The environment a single call observes: `os.path.exists` on the two
paths, and the result of `Image.open(...).convert("RGBA")` (before the
conversion), `none` when that raises. -/
structure Env where
  sourceExists : Bool
  outputDirExists : Bool
  openResult : Option Image
deriving DecidableEq, Repr

/-- `png_files`: the generic PNG table (filename, target size). -/
def png_files : List (String × Nat) :=
  [("32x32.png", 32),
   ("128x128.png", 128),
   ("128x128@2x.png", 256),
   ("icon.png", 512)]

/-- `windows_tile_files`: the Windows tile/store PNG table. -/
def windows_tile_files : List (String × Nat) :=
  [("Square30x30Logo.png", 30),
   ("Square44x44Logo.png", 44),
   ("Square71x71Logo.png", 71),
   ("Square89x89Logo.png", 89),
   ("Square107x107Logo.png", 107),
   ("Square142x142Logo.png", 142),
   ("Square150x150Logo.png", 150),
   ("Square284x284Logo.png", 284),
   ("Square310x310Logo.png", 310),
   ("StoreLogo.png", 50)]

/-- `ico_sizes`: the size list the script passes to the ICO save. -/
def ico_sizes : List (Nat × Nat) :=
  [(16, 16), (32, 32), (48, 48), (64, 64), (128, 128), (256, 256)]

/-- One iteration of the PNG loops: resize square with LANCZOS and save
as PNG at `<output_dir>/<filename>`. -/
def resizeSave (img : Image) (output_dir : String) (entry : String × Nat) :
    String × FileData :=
  (osPathJoin output_dir entry.1,
   FileData.pngFile (img.resize (entry.2, entry.2) Resampling.LANCZOS))

/-- All file writes of a run that got past decoding, in program order:
the two PNG loops, the ICO save, and the conditional ICNS save. -/
def successWrites (output_dir : String) (img : Image) : List (String × FileData) :=
  png_files.map (resizeSave img output_dir) ++
  windows_tile_files.map (resizeSave img output_dir) ++
  [(osPathJoin output_dir "icon.ico", FileData.icoFile img ico_sizes)] ++
  (if 512 ≤ img.size.1 ∧ 512 ≤ img.size.2 then
    [(osPathJoin output_dir "icon.icns", FileData.icnsFile img)]
   else [])

/-- The messages printed by a run that got past decoding, in program
order. -/
def successMsgs (output_dir : String) (img : Image) : List Msg :=
  [Msg.generatingPngs] ++ png_files.map (fun e => Msg.generatedFile e.1) ++
  [Msg.generatingTiles] ++ windows_tile_files.map (fun e => Msg.generatedFile e.1) ++
  [Msg.generatingIco, Msg.generatedIco ico_sizes, Msg.generatingIcns] ++
  (if 512 ≤ img.size.1 ∧ 512 ≤ img.size.2 then [Msg.generatedIcns]
   else [Msg.warnSourceSmall]) ++
  [Msg.allDone output_dir]

/-- The routine `generate_tauri_icons(source_image_path, output_dir)`,
as a function from the observed environment to its effects.  The Python
default for `output_dir` is `"icons"` (see `mainRun`). -/
def generate_tauri_icons (source_image_path output_dir : String) (env : Env) :
    RunResult :=
  if env.sourceExists = false then
    { outcome := Outcome.missingSource
      messages := [Msg.errMissingSource source_image_path]
      createdDir := none
      writes := [] }
  else
    let createdDir := if env.outputDirExists then none else some output_dir
    let dirMsgs := if env.outputDirExists then [] else [Msg.dirCreated output_dir]
    match env.openResult with
    | none =>
        { outcome := Outcome.decodeFailure
          messages := dirMsgs ++ [Msg.errCannotOpen]
          createdDir := createdDir
          writes := [] }
    | some opened =>
        let img := opened.convert "RGBA"
        { outcome := Outcome.completed
          messages := dirMsgs ++ [Msg.loadedSource source_image_path img.size] ++
            successMsgs output_dir img
          createdDir := createdDir
          writes := successWrites output_dir img }

/-- The filesystem: the directories that exist and an association list
of files (first match wins on lookup). -/
structure FS where
  dirs : List String
  files : List (String × FileData)
deriving DecidableEq, Repr

/-- Look up the file stored at key `k` (first match wins). -/
def getFile : List (String × FileData) → String → Option FileData
  | [], _ => none
  | (k', v') :: rest, k => if k' = k then some v' else getFile rest k

/-- `os.path.exists`. -/
def FS.pathExists (fs : FS) (p : String) : Bool :=
  fs.dirs.contains p || (getFile fs.files p).isSome

/-- What opening the file at `p` decodes to (`none`: no file or decode
failure). -/
def FS.openPath (fs : FS) (p : String) : Option Image :=
  (getFile fs.files p).bind FileData.decode

/-- Write (create or overwrite in place) the file at key `k`. -/
def setFile : List (String × FileData) → String → FileData → List (String × FileData)
  | [], k, v => [(k, v)]
  | (k', v') :: rest, k, v =>
      if k' = k then (k, v) :: rest else (k', v') :: setFile rest k v

/-- Replay a list of file writes on a filesystem. -/
def FS.applyWrites (fs : FS) (ws : List (String × FileData)) : FS :=
  { fs with files := ws.foldl (fun acc kv => setFile acc kv.1 kv.2) fs.files }

/-- Replay `os.makedirs` (a no-op when nothing was created). -/
def FS.addDir (fs : FS) (d : Option String) : FS :=
  match d with
  | none => fs
  | some dir => { fs with dirs := fs.dirs ++ [dir] }

/-- The environment the script observes on filesystem `fs`. -/
def envOf (fs : FS) (src dir : String) : Env :=
  { sourceExists := fs.pathExists src
    outputDirExists := fs.pathExists dir
    openResult := fs.openPath src }

/-- Run the script against a filesystem: observe, run, replay the
effects.  Returns the new filesystem and the run's effect record. -/
def runFS (src dir : String) (fs : FS) : FS × RunResult :=
  let r := generate_tauri_icons src dir (envOf fs src dir)
  ((fs.addDir r.createdDir).applyWrites r.writes, r)

/-- The `__main__` entry point: `generate_tauri_icons("dog.png")` with
the default output directory `"icons"`. -/
def mainRun (env : Env) : RunResult :=
  generate_tauri_icons "dog.png" "icons" env

/-! ## Helper lemmas about paths -/

/-- Joining distinct names under the same directory gives distinct paths. -/
@[simp]
theorem osPathJoin_eq_iff {d a b : String} : osPathJoin d a = osPathJoin d b ↔ a = b := by
  constructor
  · intro h
    have h2 : (d ++ "/" ++ a).data = (d ++ "/" ++ b).data := by
      simpa [osPathJoin] using congrArg String.data h
    simp only [String.data_append] at h2
    exact String.ext (List.append_cancel_left h2)
  · intro h
    rw [h]

theorem osPathJoin_injective (d : String) : Function.Injective (osPathJoin d) :=
  fun _ _ h => osPathJoin_eq_iff.mp h

/-! ## Helper lemmas about a successful run -/

theorem generate_writes_of_success {src dir : String} {env : Env} {o : Image}
    (h1 : env.sourceExists = true) (h2 : env.openResult = some o) :
    (generate_tauri_icons src dir env).writes = successWrites dir (o.convert "RGBA") := by
  simp [generate_tauri_icons, h1, h2]

theorem generate_outcome_of_success {src dir : String} {env : Env} {o : Image}
    (h1 : env.sourceExists = true) (h2 : env.openResult = some o) :
    (generate_tauri_icons src dir env).outcome = Outcome.completed := by
  simp [generate_tauri_icons, h1, h2]

theorem generate_createdDir_of_found {src dir : String} {env : Env}
    (h1 : env.sourceExists = true) :
    (generate_tauri_icons src dir env).createdDir =
      (if env.outputDirExists then none else some dir) := by
  cases h2 : env.openResult <;> simp [generate_tauri_icons, h1, h2]

theorem generate_messages_of_success {src dir : String} {env : Env} {o : Image}
    (h1 : env.sourceExists = true) (h2 : env.openResult = some o) :
    (generate_tauri_icons src dir env).messages =
      (if env.outputDirExists then [] else [Msg.dirCreated dir]) ++
      [Msg.loadedSource src (o.convert "RGBA").size] ++
      successMsgs dir (o.convert "RGBA") := by
  simp [generate_tauri_icons, h1, h2]

theorem generate_completed_inv {src dir : String} {env : Env}
    (h : (generate_tauri_icons src dir env).outcome = Outcome.completed) :
    env.sourceExists = true ∧ ∃ o, env.openResult = some o := by
  by_cases h1 : env.sourceExists = true
  · cases h2 : env.openResult with
    | none => simp [generate_tauri_icons, h1, h2] at h
    | some o => exact ⟨h1, o, rfl⟩
  · have h1f : env.sourceExists = false := by
      cases hb : env.sourceExists
      · rfl
      · exact absurd hb h1
    simp [generate_tauri_icons, h1f] at h

/-- The written paths of a successful run, as names joined under the
output directory. -/
theorem successWrites_fst (dir : String) (img : Image) :
    (successWrites dir img).map Prod.fst =
      ((png_files.map Prod.fst ++ windows_tile_files.map Prod.fst ++ ["icon.ico"]) ++
        (if 512 ≤ img.size.1 ∧ 512 ≤ img.size.2 then ["icon.icns"] else [])).map
        (osPathJoin dir) := by
  by_cases hc : 512 ≤ img.size.1 ∧ 512 ≤ img.size.2 <;>
    simp [successWrites, hc, resizeSave, png_files, windows_tile_files]

/-- Every file a successful run writes embeds a raster whose pixel mode
is that of the one converted source image. -/
theorem successWrites_mode (dir : String) (img : Image) :
    ∀ w ∈ successWrites dir img, FileData.embeddedMode w.2 = some img.mode := by
  intro w hw
  simp only [successWrites, List.mem_append] at hw
  rcases hw with ((hw | hw) | hw) | hw
  · rcases List.mem_map.mp hw with ⟨e, _, rfl⟩
    rfl
  · rcases List.mem_map.mp hw with ⟨e, _, rfl⟩
    rfl
  · rcases List.mem_singleton.mp hw with rfl
    rfl
  · by_cases hc : 512 ≤ img.size.1 ∧ 512 ≤ img.size.2
    · rw [if_pos hc] at hw
      rcases List.mem_singleton.mp hw with rfl
      rfl
    · rw [if_neg hc] at hw
      exact absurd hw (List.not_mem_nil w)

/-! ## Claim theorems: error paths -/

/-- Claim C5: for every source path that does not exist on the
filesystem, the routine produces no output files, creates no output
directory, leaves the filesystem unchanged, and reports the
missing-source failure; the run aborts before any output is produced. -/
theorem icons_missing_source_no_output (src dir : String) (fs : FS)
    (h : fs.pathExists src = false) :
    (runFS src dir fs).1 = fs ∧
    (runFS src dir fs).2.writes = [] ∧
    (runFS src dir fs).2.createdDir = none ∧
    (runFS src dir fs).2.messages = [Msg.errMissingSource src] ∧
    (runFS src dir fs).2.outcome = Outcome.missingSource := by
  simp [runFS, generate_tauri_icons, envOf, h, FS.addDir, FS.applyWrites]

/-- Witness for C5 on the empty filesystem. -/
theorem icons_missing_source_no_output_witness :
    (FS.pathExists ⟨[], []⟩ "dog.png" = false) ∧
    ((runFS "dog.png" "icons" ⟨[], []⟩).1 = (⟨[], []⟩ : FS) ∧
     (runFS "dog.png" "icons" ⟨[], []⟩).2.writes = [] ∧
     (runFS "dog.png" "icons" ⟨[], []⟩).2.createdDir = none ∧
     (runFS "dog.png" "icons" ⟨[], []⟩).2.messages = [Msg.errMissingSource "dog.png"] ∧
     (runFS "dog.png" "icons" ⟨[], []⟩).2.outcome = Outcome.missingSource) :=
  ⟨by decide, icons_missing_source_no_output "dog.png" "icons" ⟨[], []⟩ (by decide)⟩

/-- Claim C6, counterexample: on a filesystem holding only an
undecodable `dog.png` and no `icons` directory, the run ends in a decode
failure and writes no files, yet the filesystem is changed (the output
directory is created before decoding is attempted), refuting "no
filesystem state is changed". -/
theorem icons_decode_failure_changes_fs_cex :
    (runFS "dog.png" "icons" ⟨[], [("dog.png", FileData.rawFile none)]⟩).2.outcome =
      Outcome.decodeFailure ∧
    (runFS "dog.png" "icons" ⟨[], [("dog.png", FileData.rawFile none)]⟩).2.writes = [] ∧
    (runFS "dog.png" "icons" ⟨[], [("dog.png", FileData.rawFile none)]⟩).1.dirs = ["icons"] ∧
    (runFS "dog.png" "icons" ⟨[], [("dog.png", FileData.rawFile none)]⟩).1 ≠
      (⟨[], [("dog.png", FileData.rawFile none)]⟩ : FS) := by
  refine ⟨rfl, rfl, rfl, ?_⟩
  intro hcontra
  exact absurd (congrArg FS.dirs hcontra) (by decide)

/-- Claim C6, amended: for every source path that exists but cannot be
decoded as an image, the routine writes no output files and reports the
failure with a message, but it may first create the output directory
(exactly when that directory was absent); apart from that directory
creation no filesystem output is produced. -/
theorem icons_decode_failure_no_files (src dir : String) (env : Env)
    (h1 : env.sourceExists = true) (h2 : env.openResult = none) :
    (generate_tauri_icons src dir env).writes = [] ∧
    (generate_tauri_icons src dir env).outcome = Outcome.decodeFailure ∧
    Msg.errCannotOpen ∈ (generate_tauri_icons src dir env).messages ∧
    (generate_tauri_icons src dir env).createdDir =
      (if env.outputDirExists = true then none else some dir) := by
  cases hb : env.outputDirExists <;> simp [generate_tauri_icons, h1, h2, hb]

/-- Witness for the amended C6. -/
theorem icons_decode_failure_no_files_witness :
    ((Env.mk true false none).sourceExists = true ∧
     (Env.mk true false none).openResult = none) ∧
    ((generate_tauri_icons "dog.png" "icons" (Env.mk true false none)).writes = [] ∧
     (generate_tauri_icons "dog.png" "icons" (Env.mk true false none)).outcome =
       Outcome.decodeFailure ∧
     Msg.errCannotOpen ∈ (generate_tauri_icons "dog.png" "icons" (Env.mk true false none)).messages ∧
     (generate_tauri_icons "dog.png" "icons" (Env.mk true false none)).createdDir =
       (if (Env.mk true false none).outputDirExists = true then none else some "icons")) :=
  ⟨⟨rfl, rfl⟩, icons_decode_failure_no_files "dog.png" "icons" (Env.mk true false none) rfl rfl⟩

/-- Claim C9: on its handled error paths the routine returns normally
with a `RunResult` rather than propagating an exception: a missing
source or a decode failure each yield an early-return outcome, at least
one printed message, and no file writes. -/
theorem icons_error_paths_return_normally (src dir : String) (env : Env)
    (h : env.sourceExists = false ∨ (env.sourceExists = true ∧ env.openResult = none)) :
    (generate_tauri_icons src dir env).writes = [] ∧
    (generate_tauri_icons src dir env).messages ≠ [] ∧
    ((generate_tauri_icons src dir env).outcome = Outcome.missingSource ∨
     (generate_tauri_icons src dir env).outcome = Outcome.decodeFailure) := by
  rcases h with h | ⟨h1, h2⟩
  · simp [generate_tauri_icons, h]
  · cases hb : env.outputDirExists <;> simp [generate_tauri_icons, h1, h2, hb]

/-- Witness for C9 on the missing-source path. -/
theorem icons_error_paths_return_normally_witness :
    ((Env.mk false true none).sourceExists = false ∨
      ((Env.mk false true none).sourceExists = true ∧
       (Env.mk false true none).openResult = none)) ∧
    ((generate_tauri_icons "dog.png" "icons" (Env.mk false true none)).writes = [] ∧
     (generate_tauri_icons "dog.png" "icons" (Env.mk false true none)).messages ≠ [] ∧
     ((generate_tauri_icons "dog.png" "icons" (Env.mk false true none)).outcome =
        Outcome.missingSource ∨
      (generate_tauri_icons "dog.png" "icons" (Env.mk false true none)).outcome =
        Outcome.decodeFailure)) :=
  ⟨Or.inl rfl,
   icons_error_paths_return_normally "dog.png" "icons" (Env.mk false true none) (Or.inl rfl)⟩

/-! ## Claim theorems: successful runs -/

/-- Claim C8: a successfully decoded source is converted to RGBA once,
every output raster is derived from that single converted image (the
write list is a function of it alone), and every generated output file
embeds the RGBA pixel mode. -/
theorem icons_outputs_rgba (src dir : String) (env : Env) (o : Image)
    (h1 : env.sourceExists = true) (h2 : env.openResult = some o) :
    (generate_tauri_icons src dir env).writes = successWrites dir (o.convert "RGBA") ∧
    (o.convert "RGBA").mode = "RGBA" ∧
    ∀ w ∈ (generate_tauri_icons src dir env).writes,
      FileData.embeddedMode w.2 = some "RGBA" := by
  refine ⟨generate_writes_of_success h1 h2, rfl, ?_⟩
  intro w hw
  rw [generate_writes_of_success h1 h2] at hw
  exact successWrites_mode dir (o.convert "RGBA") w hw

/-- Witness for C8 with a 1024x1024 RGB source. -/
theorem icons_outputs_rgba_witness :
    ((Env.mk true true (some (Image.mk 1024 1024 "RGB" none))).sourceExists = true ∧
     (Env.mk true true (some (Image.mk 1024 1024 "RGB" none))).openResult =
       some (Image.mk 1024 1024 "RGB" none)) ∧
    ((generate_tauri_icons "dog.png" "icons"
        (Env.mk true true (some (Image.mk 1024 1024 "RGB" none)))).writes =
      successWrites "icons" ((Image.mk 1024 1024 "RGB" none).convert "RGBA") ∧
     ((Image.mk 1024 1024 "RGB" none).convert "RGBA").mode = "RGBA" ∧
     ∀ w ∈ (generate_tauri_icons "dog.png" "icons"
        (Env.mk true true (some (Image.mk 1024 1024 "RGB" none)))).writes,
       FileData.embeddedMode w.2 = some "RGBA") :=
  ⟨⟨rfl, rfl⟩,
   icons_outputs_rgba "dog.png" "icons"
     (Env.mk true true (some (Image.mk 1024 1024 "RGB" none)))
     (Image.mk 1024 1024 "RGB" none) rfl rfl⟩

/-- Claim C2: for every entry (filename, size) of the icon specification
table (generic PNGs and Windows tile PNGs) and every successfully
decoded source, the run writes a PNG at `<output_dir>/<filename>` whose
raster is exactly size x size and was resized with the LANCZOS filter. -/
theorem icons_png_entry_dims (src dir : String) (env : Env) (o : Image)
    (h1 : env.sourceExists = true) (h2 : env.openResult = some o)
    (fn : String) (size : Nat) (hmem : (fn, size) ∈ png_files ++ windows_tile_files) :
    (osPathJoin dir fn,
      FileData.pngFile ((o.convert "RGBA").resize (size, size) Resampling.LANCZOS)) ∈
      (generate_tauri_icons src dir env).writes ∧
    ((o.convert "RGBA").resize (size, size) Resampling.LANCZOS).width = size ∧
    ((o.convert "RGBA").resize (size, size) Resampling.LANCZOS).height = size ∧
    ((o.convert "RGBA").resize (size, size) Resampling.LANCZOS).resampledWith =
      some Resampling.LANCZOS := by
  refine ⟨?_, rfl, rfl, rfl⟩
  rw [generate_writes_of_success h1 h2]
  have hpair : (osPathJoin dir fn,
      FileData.pngFile ((o.convert "RGBA").resize (size, size) Resampling.LANCZOS)) =
      resizeSave (o.convert "RGBA") dir (fn, size) := rfl
  rw [hpair]
  rcases List.mem_append.mp hmem with hm | hm
  · exact List.mem_append_left _ (List.mem_append_left _ (List.mem_append_left _
      (List.mem_map_of_mem _ hm)))
  · exact List.mem_append_left _ (List.mem_append_left _ (List.mem_append_right _
      (List.mem_map_of_mem _ hm)))

/-- Witness for C2 at the table entry ("32x32.png", 32). -/
theorem icons_png_entry_dims_witness :
    (("32x32.png", 32) ∈ png_files ++ windows_tile_files) ∧
    ((osPathJoin "icons" "32x32.png",
        FileData.pngFile (((Image.mk 1024 1024 "RGB" none).convert "RGBA").resize
          (32, 32) Resampling.LANCZOS)) ∈
      (generate_tauri_icons "dog.png" "icons"
        (Env.mk true true (some (Image.mk 1024 1024 "RGB" none)))).writes ∧
     (((Image.mk 1024 1024 "RGB" none).convert "RGBA").resize
        (32, 32) Resampling.LANCZOS).width = 32 ∧
     (((Image.mk 1024 1024 "RGB" none).convert "RGBA").resize
        (32, 32) Resampling.LANCZOS).height = 32 ∧
     (((Image.mk 1024 1024 "RGB" none).convert "RGBA").resize
        (32, 32) Resampling.LANCZOS).resampledWith = some Resampling.LANCZOS) :=
  ⟨by decide,
   icons_png_entry_dims "dog.png" "icons"
     (Env.mk true true (some (Image.mk 1024 1024 "RGB" none)))
     (Image.mk 1024 1024 "RGB" none) rfl rfl "32x32.png" 32 (by decide)⟩

/-- Claim C1: for every source that exists, decodes, and is at least
512x512, the run writes exactly the sixteen enumerated files - the four
generic PNGs, the ten Windows tile/store PNGs, `icon.ico` and
`icon.icns` - under the output directory, and no other file. -/
theorem icons_full_output_set (src dir : String) (env : Env) (o : Image)
    (h1 : env.sourceExists = true) (h2 : env.openResult = some o)
    (h3 : 512 ≤ o.width) (h4 : 512 ≤ o.height) :
    (generate_tauri_icons src dir env).writes.map Prod.fst =
      [osPathJoin dir "32x32.png", osPathJoin dir "128x128.png",
       osPathJoin dir "128x128@2x.png", osPathJoin dir "icon.png",
       osPathJoin dir "Square30x30Logo.png", osPathJoin dir "Square44x44Logo.png",
       osPathJoin dir "Square71x71Logo.png", osPathJoin dir "Square89x89Logo.png",
       osPathJoin dir "Square107x107Logo.png", osPathJoin dir "Square142x142Logo.png",
       osPathJoin dir "Square150x150Logo.png", osPathJoin dir "Square284x284Logo.png",
       osPathJoin dir "Square310x310Logo.png", osPathJoin dir "StoreLogo.png",
       osPathJoin dir "icon.ico", osPathJoin dir "icon.icns"] := by
  rw [generate_writes_of_success h1 h2, successWrites_fst]
  have hc : 512 ≤ (o.convert "RGBA").size.1 ∧ 512 ≤ (o.convert "RGBA").size.2 := ⟨h3, h4⟩
  rw [if_pos hc]
  simp [png_files, windows_tile_files]

/-- Witness for C1 with a 1024x1024 source. -/
theorem icons_full_output_set_witness :
    ((512 : Nat) ≤ 1024) ∧
    (generate_tauri_icons "dog.png" "icons"
        (Env.mk true true (some (Image.mk 1024 1024 "RGB" none)))).writes.map Prod.fst =
      [osPathJoin "icons" "32x32.png", osPathJoin "icons" "128x128.png",
       osPathJoin "icons" "128x128@2x.png", osPathJoin "icons" "icon.png",
       osPathJoin "icons" "Square30x30Logo.png", osPathJoin "icons" "Square44x44Logo.png",
       osPathJoin "icons" "Square71x71Logo.png", osPathJoin "icons" "Square89x89Logo.png",
       osPathJoin "icons" "Square107x107Logo.png", osPathJoin "icons" "Square142x142Logo.png",
       osPathJoin "icons" "Square150x150Logo.png", osPathJoin "icons" "Square284x284Logo.png",
       osPathJoin "icons" "Square310x310Logo.png", osPathJoin "icons" "StoreLogo.png",
       osPathJoin "icons" "icon.ico", osPathJoin "icons" "icon.icns"] :=
  ⟨by decide,
   icons_full_output_set "dog.png" "icons"
     (Env.mk true true (some (Image.mk 1024 1024 "RGB" none)))
     (Image.mk 1024 1024 "RGB" none) rfl rfl (by decide) (by decide)⟩

/-- The written paths of a run on a source failing the 512x512 check:
the fifteen non-ICNS outputs, and nothing else. -/
theorem writes_fst_of_small (src dir : String) (env : Env) (o : Image)
    (h1 : env.sourceExists = true) (h2 : env.openResult = some o)
    (hc : ¬(512 ≤ o.width ∧ 512 ≤ o.height)) :
    (generate_tauri_icons src dir env).writes.map Prod.fst =
      [osPathJoin dir "32x32.png", osPathJoin dir "128x128.png",
       osPathJoin dir "128x128@2x.png", osPathJoin dir "icon.png",
       osPathJoin dir "Square30x30Logo.png", osPathJoin dir "Square44x44Logo.png",
       osPathJoin dir "Square71x71Logo.png", osPathJoin dir "Square89x89Logo.png",
       osPathJoin dir "Square107x107Logo.png", osPathJoin dir "Square142x142Logo.png",
       osPathJoin dir "Square150x150Logo.png", osPathJoin dir "Square284x284Logo.png",
       osPathJoin dir "Square310x310Logo.png", osPathJoin dir "StoreLogo.png",
       osPathJoin dir "icon.ico"] := by
  rw [generate_writes_of_success h1 h2, successWrites_fst]
  have hc2 : ¬(512 ≤ (o.convert "RGBA").size.1 ∧ 512 ≤ (o.convert "RGBA").size.2) := hc
  rw [if_neg hc2]
  simp [png_files, windows_tile_files]

/-- The ICNS path is not among the fifteen non-ICNS output paths. -/
theorem icns_not_in_small_writes (src dir : String) (env : Env) (o : Image)
    (h1 : env.sourceExists = true) (h2 : env.openResult = some o)
    (hc : ¬(512 ≤ o.width ∧ 512 ≤ o.height)) :
    osPathJoin dir "icon.icns" ∉ (generate_tauri_icons src dir env).writes.map Prod.fst := by
  rw [writes_fst_of_small src dir env o h1 h2 hc]
  intro hmem
  simp only [List.mem_cons, List.not_mem_nil, or_false, osPathJoin_eq_iff] at hmem
  revert hmem
  decide

/-- A warning is printed by a run on a source failing the 512x512
check. -/
theorem warn_of_small (src dir : String) (env : Env) (o : Image)
    (h1 : env.sourceExists = true) (h2 : env.openResult = some o)
    (hc : ¬(512 ≤ o.width ∧ 512 ≤ o.height)) :
    Msg.warnSourceSmall ∈ (generate_tauri_icons src dir env).messages := by
  rw [generate_messages_of_success h1 h2]
  have hc2 : ¬(512 ≤ (o.convert "RGBA").size.1 ∧ 512 ≤ (o.convert "RGBA").size.2) := hc
  simp [successMsgs, hc2]

/-- Claim C4: for every source that exists and decodes but is smaller
than 512x512 (one of the dimensions below 512), the run still completes,
writes exactly the fifteen non-ICNS outputs (all PNGs and `icon.ico`),
skips `icon.icns`, and records the warning. -/
theorem icons_small_source_skips_icns (src dir : String) (env : Env) (o : Image)
    (h1 : env.sourceExists = true) (h2 : env.openResult = some o)
    (h3 : o.width < 512 ∨ o.height < 512) :
    (generate_tauri_icons src dir env).writes.map Prod.fst =
      [osPathJoin dir "32x32.png", osPathJoin dir "128x128.png",
       osPathJoin dir "128x128@2x.png", osPathJoin dir "icon.png",
       osPathJoin dir "Square30x30Logo.png", osPathJoin dir "Square44x44Logo.png",
       osPathJoin dir "Square71x71Logo.png", osPathJoin dir "Square89x89Logo.png",
       osPathJoin dir "Square107x107Logo.png", osPathJoin dir "Square142x142Logo.png",
       osPathJoin dir "Square150x150Logo.png", osPathJoin dir "Square284x284Logo.png",
       osPathJoin dir "Square310x310Logo.png", osPathJoin dir "StoreLogo.png",
       osPathJoin dir "icon.ico"] ∧
    osPathJoin dir "icon.icns" ∉ (generate_tauri_icons src dir env).writes.map Prod.fst ∧
    Msg.warnSourceSmall ∈ (generate_tauri_icons src dir env).messages ∧
    (generate_tauri_icons src dir env).outcome = Outcome.completed := by
  have hc : ¬(512 ≤ o.width ∧ 512 ≤ o.height) := by
    rcases h3 with h | h
    · exact fun hcc => absurd hcc.1 (Nat.not_le.mpr h)
    · exact fun hcc => absurd hcc.2 (Nat.not_le.mpr h)
  exact ⟨writes_fst_of_small src dir env o h1 h2 hc,
         icns_not_in_small_writes src dir env o h1 h2 hc,
         warn_of_small src dir env o h1 h2 hc,
         generate_outcome_of_success h1 h2⟩

/-- Witness for C4 with a 256x256 source. -/
theorem icons_small_source_skips_icns_witness :
    ((256 : Nat) < 512 ∨ (256 : Nat) < 512) ∧
    ((generate_tauri_icons "dog.png" "icons"
        (Env.mk true true (some (Image.mk 256 256 "RGB" none)))).writes.map Prod.fst =
      [osPathJoin "icons" "32x32.png", osPathJoin "icons" "128x128.png",
       osPathJoin "icons" "128x128@2x.png", osPathJoin "icons" "icon.png",
       osPathJoin "icons" "Square30x30Logo.png", osPathJoin "icons" "Square44x44Logo.png",
       osPathJoin "icons" "Square71x71Logo.png", osPathJoin "icons" "Square89x89Logo.png",
       osPathJoin "icons" "Square107x107Logo.png", osPathJoin "icons" "Square142x142Logo.png",
       osPathJoin "icons" "Square150x150Logo.png", osPathJoin "icons" "Square284x284Logo.png",
       osPathJoin "icons" "Square310x310Logo.png", osPathJoin "icons" "StoreLogo.png",
       osPathJoin "icons" "icon.ico"] ∧
     osPathJoin "icons" "icon.icns" ∉
       (generate_tauri_icons "dog.png" "icons"
         (Env.mk true true (some (Image.mk 256 256 "RGB" none)))).writes.map Prod.fst ∧
     Msg.warnSourceSmall ∈
       (generate_tauri_icons "dog.png" "icons"
         (Env.mk true true (some (Image.mk 256 256 "RGB" none)))).messages ∧
     (generate_tauri_icons "dog.png" "icons"
       (Env.mk true true (some (Image.mk 256 256 "RGB" none)))).outcome =
       Outcome.completed) :=
  ⟨Or.inl (by decide),
   icons_small_source_skips_icns "dog.png" "icons"
     (Env.mk true true (some (Image.mk 256 256 "RGB" none)))
     (Image.mk 256 256 "RGB" none) rfl rfl (Or.inl (by decide))⟩

/-- Claim C10: the ICNS condition requires both dimensions to reach 512
independently: a non-square source with exactly one dimension below 512
still yields all fifteen PNG and ICO outputs but no `icon.icns`, with
the warning recorded, and the run completes. -/
theorem icons_nonsquare_threshold_both_dims (src dir : String) (env : Env) (o : Image)
    (h1 : env.sourceExists = true) (h2 : env.openResult = some o)
    (h3 : (512 ≤ o.width ∧ o.height < 512) ∨ (o.width < 512 ∧ 512 ≤ o.height)) :
    (generate_tauri_icons src dir env).writes.map Prod.fst =
      [osPathJoin dir "32x32.png", osPathJoin dir "128x128.png",
       osPathJoin dir "128x128@2x.png", osPathJoin dir "icon.png",
       osPathJoin dir "Square30x30Logo.png", osPathJoin dir "Square44x44Logo.png",
       osPathJoin dir "Square71x71Logo.png", osPathJoin dir "Square89x89Logo.png",
       osPathJoin dir "Square107x107Logo.png", osPathJoin dir "Square142x142Logo.png",
       osPathJoin dir "Square150x150Logo.png", osPathJoin dir "Square284x284Logo.png",
       osPathJoin dir "Square310x310Logo.png", osPathJoin dir "StoreLogo.png",
       osPathJoin dir "icon.ico"] ∧
    osPathJoin dir "icon.icns" ∉ (generate_tauri_icons src dir env).writes.map Prod.fst ∧
    Msg.warnSourceSmall ∈ (generate_tauri_icons src dir env).messages ∧
    (generate_tauri_icons src dir env).outcome = Outcome.completed := by
  have hc : ¬(512 ≤ o.width ∧ 512 ≤ o.height) := by
    rcases h3 with ⟨_, h⟩ | ⟨h, _⟩
    · exact fun hcc => absurd hcc.2 (Nat.not_le.mpr h)
    · exact fun hcc => absurd hcc.1 (Nat.not_le.mpr h)
  exact ⟨writes_fst_of_small src dir env o h1 h2 hc,
         icns_not_in_small_writes src dir env o h1 h2 hc,
         warn_of_small src dir env o h1 h2 hc,
         generate_outcome_of_success h1 h2⟩

/-- Witness for C10 with a 1024x400 source. -/
theorem icons_nonsquare_threshold_both_dims_witness :
    (((512 : Nat) ≤ 1024 ∧ (400 : Nat) < 512) ∨ ((1024 : Nat) < 512 ∧ (512 : Nat) ≤ 400)) ∧
    ((generate_tauri_icons "dog.png" "icons"
        (Env.mk true true (some (Image.mk 1024 400 "RGB" none)))).writes.map Prod.fst =
      [osPathJoin "icons" "32x32.png", osPathJoin "icons" "128x128.png",
       osPathJoin "icons" "128x128@2x.png", osPathJoin "icons" "icon.png",
       osPathJoin "icons" "Square30x30Logo.png", osPathJoin "icons" "Square44x44Logo.png",
       osPathJoin "icons" "Square71x71Logo.png", osPathJoin "icons" "Square89x89Logo.png",
       osPathJoin "icons" "Square107x107Logo.png", osPathJoin "icons" "Square142x142Logo.png",
       osPathJoin "icons" "Square150x150Logo.png", osPathJoin "icons" "Square284x284Logo.png",
       osPathJoin "icons" "Square310x310Logo.png", osPathJoin "icons" "StoreLogo.png",
       osPathJoin "icons" "icon.ico"] ∧
     osPathJoin "icons" "icon.icns" ∉
       (generate_tauri_icons "dog.png" "icons"
         (Env.mk true true (some (Image.mk 1024 400 "RGB" none)))).writes.map Prod.fst ∧
     Msg.warnSourceSmall ∈
       (generate_tauri_icons "dog.png" "icons"
         (Env.mk true true (some (Image.mk 1024 400 "RGB" none)))).messages ∧
     (generate_tauri_icons "dog.png" "icons"
       (Env.mk true true (some (Image.mk 1024 400 "RGB" none)))).outcome =
       Outcome.completed) :=
  ⟨Or.inl ⟨by decide, by decide⟩,
   icons_nonsquare_threshold_both_dims "dog.png" "icons"
     (Env.mk true true (some (Image.mk 1024 400 "RGB" none)))
     (Image.mk 1024 400 "RGB" none) rfl rfl (Or.inl ⟨by decide, by decide⟩)⟩

/-! ## Lemmas about replaying writes, towards idempotence -/

/-- Fold a write list over a file association list. -/
def writeAll (l : List (String × FileData)) (ws : List (String × FileData)) :
    List (String × FileData) :=
  ws.foldl (fun acc kv => setFile acc kv.1 kv.2) l

theorem writeAll_cons (l : List (String × FileData)) (kv : String × FileData)
    (ws : List (String × FileData)) :
    writeAll l (kv :: ws) = writeAll (setFile l kv.1 kv.2) ws := rfl

theorem applyWrites_dirs (fs : FS) (ws : List (String × FileData)) :
    (fs.applyWrites ws).dirs = fs.dirs := rfl

theorem applyWrites_files (fs : FS) (ws : List (String × FileData)) :
    (fs.applyWrites ws).files = writeAll fs.files ws := rfl

theorem addDir_files (fs : FS) (d : Option String) :
    (fs.addDir d).files = fs.files := by
  cases d <;> rfl

theorem getFile_setFile (l : List (String × FileData)) (k p : String) (v : FileData) :
    getFile (setFile l k v) p = if k = p then some v else getFile l p := by
  induction l with
  | nil => rfl
  | cons hd tl ih =>
      obtain ⟨k', v'⟩ := hd
      by_cases h1 : k' = k
      · subst h1
        by_cases h2 : k' = p <;> simp [setFile, getFile, h2]
      · by_cases h2 : k' = p
        · subst h2
          have h3 : ¬(k = k') := fun h => h1 h.symm
          simp [setFile, getFile, h1, h3]
        · have hs : setFile ((k', v') :: tl) k v = (k', v') :: setFile tl k v := by
            simp [setFile, h1]
          rw [hs]
          simp only [getFile, if_neg h2]
          exact ih

theorem setFile_of_getFile_eq (l : List (String × FileData)) (k : String) (v : FileData)
    (h : getFile l k = some v) : setFile l k v = l := by
  induction l with
  | nil => simp [getFile] at h
  | cons hd tl ih =>
      obtain ⟨k', v'⟩ := hd
      by_cases h1 : k' = k
      · subst h1
        simp [getFile] at h
        simp [setFile, h]
      · simp only [getFile, if_neg h1] at h
        simp [setFile, h1, ih h]

theorem getFile_writeAll_notMem (ws : List (String × FileData))
    (l : List (String × FileData)) (p : String) (h : p ∉ ws.map Prod.fst) :
    getFile (writeAll l ws) p = getFile l p := by
  induction ws generalizing l with
  | nil => rfl
  | cons kv ws ih =>
      have h1 : kv.1 ≠ p := by
        intro he
        exact h (by simp [List.map_cons, List.mem_cons, he])
      have h2 : p ∉ ws.map Prod.fst := by
        intro hm
        exact h (by simp [List.map_cons, List.mem_cons, hm])
      rw [writeAll_cons, ih _ h2, getFile_setFile, if_neg h1]

theorem getFile_writeAll_isSome (ws : List (String × FileData))
    (l : List (String × FileData)) (p : String) (h : (getFile l p).isSome = true) :
    (getFile (writeAll l ws) p).isSome = true := by
  induction ws generalizing l with
  | nil => exact h
  | cons kv ws ih =>
      rw [writeAll_cons]
      apply ih
      rw [getFile_setFile]
      by_cases he : kv.1 = p
      · simp [he]
      · simpa [he] using h

theorem getFile_writeAll_mem (ws : List (String × FileData)) (k : String) (v : FileData) :
    ∀ l, (ws.map Prod.fst).Nodup → (k, v) ∈ ws →
      getFile (writeAll l ws) k = some v := by
  induction ws with
  | nil =>
      intro l _ h
      cases h
  | cons kv ws ih =>
      intro l hnd h
      rw [writeAll_cons]
      rcases List.mem_cons.mp h with he | hm
      · subst he
        have hk : k ∉ ws.map Prod.fst := (List.nodup_cons.mp hnd).1
        rw [getFile_writeAll_notMem ws _ _ hk, getFile_setFile, if_pos rfl]
      · exact ih _ (List.nodup_cons.mp hnd).2 hm

theorem writeAll_fixed (ws : List (String × FileData)) (L : List (String × FileData))
    (h : ∀ kv ∈ ws, getFile L kv.1 = some kv.2) :
    writeAll L ws = L := by
  induction ws with
  | nil => rfl
  | cons kv ws ih =>
      rw [writeAll_cons, setFile_of_getFile_eq L kv.1 kv.2 (h kv (List.mem_cons_self kv ws))]
      exact ih (fun e he => h e (List.mem_cons_of_mem kv he))

/-- Replaying the same write list twice is the same as replaying it
once, provided the written paths are distinct. -/
theorem writeAll_idem (ws : List (String × FileData)) (l : List (String × FileData))
    (hnd : (ws.map Prod.fst).Nodup) :
    writeAll (writeAll l ws) ws = writeAll l ws :=
  writeAll_fixed ws (writeAll l ws)
    (fun kv hkv => getFile_writeAll_mem ws kv.1 kv.2 l hnd hkv)

/-- The sixteen (or fifteen) output paths of a successful run are
pairwise distinct. -/
theorem successWrites_keys_nodup (dir : String) (img : Image) :
    ((successWrites dir img).map Prod.fst).Nodup := by
  rw [successWrites_fst]
  apply List.Nodup.map (osPathJoin_injective dir)
  by_cases hc : 512 ≤ img.size.1 ∧ 512 ≤ img.size.2
  · rw [if_pos hc]
    decide
  · rw [if_neg hc]
    decide

theorem openPath_inv {fs : FS} {p : String} {o : Image} (h : fs.openPath p = some o) :
    ∃ fd, getFile fs.files p = some fd ∧ fd.decode = some o := by
  unfold FS.openPath at h
  cases hg : getFile fs.files p with
  | none => rw [hg] at h; cases h
  | some fd => rw [hg] at h; exact ⟨fd, rfl, h⟩

theorem fs_ext {a b : FS} (h1 : a.dirs = b.dirs) (h2 : a.files = b.files) : a = b := by
  cases a
  cases b
  cases h1
  cases h2
  rfl

/-- Claim C7: if a run of the routine completes on a filesystem and the
source path is not one of the routine's own output paths, then running
it again succeeds as well, performs the same writes (overwriting each
prior output in place), and leaves the filesystem exactly as after the
single run. -/
theorem icons_run_twice_idempotent (src dir : String) (fs : FS)
    (hok : (runFS src dir fs).2.outcome = Outcome.completed)
    (hsrc : src ∉ (runFS src dir fs).2.writes.map Prod.fst) :
    (runFS src dir (runFS src dir fs).1).2.outcome = Outcome.completed ∧
    (runFS src dir (runFS src dir fs).1).2.writes = (runFS src dir fs).2.writes ∧
    (runFS src dir (runFS src dir fs).1).1 = (runFS src dir fs).1 := by
  have hok2 : (generate_tauri_icons src dir (envOf fs src dir)).outcome =
      Outcome.completed := hok
  obtain ⟨hse, o, ho⟩ := generate_completed_inv hok2
  have hse2 : fs.pathExists src = true := hse
  have ho2 : fs.openPath src = some o := ho
  obtain ⟨fd, hget, hdec⟩ := openPath_inv ho2
  have hw1 : (runFS src dir fs).2.writes = successWrites dir (o.convert "RGBA") :=
    generate_writes_of_success hse ho
  have hsrc2 : src ∉ (successWrites dir (o.convert "RGBA")).map Prod.fst := by
    rw [hw1] at hsrc
    exact hsrc
  have hfiles1 : (runFS src dir fs).1.files =
      writeAll fs.files (successWrites dir (o.convert "RGBA")) := by
    show ((fs.addDir (generate_tauri_icons src dir (envOf fs src dir)).createdDir).applyWrites
        (generate_tauri_icons src dir (envOf fs src dir)).writes).files =
      writeAll fs.files (successWrites dir (o.convert "RGBA"))
    rw [applyWrites_files, addDir_files, generate_writes_of_success hse ho]
  have hget1 : getFile (runFS src dir fs).1.files src = some fd := by
    rw [hfiles1, getFile_writeAll_notMem _ _ _ hsrc2]
    exact hget
  have hse1 : (runFS src dir fs).1.pathExists src = true := by
    unfold FS.pathExists
    rw [hget1]
    simp
  have hop1 : (runFS src dir fs).1.openPath src = some o := by
    unfold FS.openPath
    rw [hget1]
    exact hdec
  have hcd : (generate_tauri_icons src dir (envOf fs src dir)).createdDir =
      (if (envOf fs src dir).outputDirExists then none else some dir) :=
    generate_createdDir_of_found hse
  have hdir1 : (runFS src dir fs).1.pathExists dir = true := by
    by_cases hde : (envOf fs src dir).outputDirExists = true
    · have hde2 : fs.pathExists dir = true := hde
      have hdirs : (runFS src dir fs).1.dirs = fs.dirs := by
        show ((fs.addDir (generate_tauri_icons src dir (envOf fs src dir)).createdDir).applyWrites
            (generate_tauri_icons src dir (envOf fs src dir)).writes).dirs = fs.dirs
        rw [applyWrites_dirs, hcd, if_pos hde]
        rfl
      unfold FS.pathExists at hde2 ⊢
      rw [hdirs, hfiles1]
      rcases Bool.or_eq_true_iff.mp hde2 with hc | hf
      · rw [hc]
        simp
      · rw [getFile_writeAll_isSome _ _ _ hf]
        simp
    · have hdirs : (runFS src dir fs).1.dirs = fs.dirs ++ [dir] := by
        show ((fs.addDir (generate_tauri_icons src dir (envOf fs src dir)).createdDir).applyWrites
            (generate_tauri_icons src dir (envOf fs src dir)).writes).dirs = fs.dirs ++ [dir]
        rw [applyWrites_dirs, hcd, if_neg hde]
        rfl
      unfold FS.pathExists
      rw [hdirs]
      have hmem : dir ∈ fs.dirs ++ [dir] :=
        List.mem_append_right _ (List.mem_singleton.mpr rfl)
      have hc : (fs.dirs ++ [dir]).contains dir = true := List.elem_eq_true_of_mem hmem
      rw [hc]
      simp
  have henv2source : (envOf (runFS src dir fs).1 src dir).sourceExists = true := hse1
  have henv2open : (envOf (runFS src dir fs).1 src dir).openResult = some o := hop1
  have henv2dir : (envOf (runFS src dir fs).1 src dir).outputDirExists = true := hdir1
  refine ⟨generate_outcome_of_success henv2source henv2open, ?_, ?_⟩
  · have h2 : (runFS src dir (runFS src dir fs).1).2.writes =
        successWrites dir (o.convert "RGBA") :=
      generate_writes_of_success henv2source henv2open
    rw [h2, hw1]
  · apply fs_ext
    · show (((runFS src dir fs).1.addDir
          (generate_tauri_icons src dir (envOf (runFS src dir fs).1 src dir)).createdDir).applyWrites
          (generate_tauri_icons src dir (envOf (runFS src dir fs).1 src dir)).writes).dirs =
        (runFS src dir fs).1.dirs
      have hcd2 : (generate_tauri_icons src dir
          (envOf (runFS src dir fs).1 src dir)).createdDir = none := by
        rw [generate_createdDir_of_found henv2source, if_pos henv2dir]
      rw [applyWrites_dirs, hcd2]
      rfl
    · have hfiles2 : (runFS src dir (runFS src dir fs).1).1.files =
          writeAll (runFS src dir fs).1.files (successWrites dir (o.convert "RGBA")) := by
        show (((runFS src dir fs).1.addDir
            (generate_tauri_icons src dir (envOf (runFS src dir fs).1 src dir)).createdDir).applyWrites
            (generate_tauri_icons src dir (envOf (runFS src dir fs).1 src dir)).writes).files =
          writeAll (runFS src dir fs).1.files (successWrites dir (o.convert "RGBA"))
        rw [applyWrites_files, addDir_files, generate_writes_of_success henv2source henv2open]
      rw [hfiles2, hfiles1]
      exact writeAll_idem _ _ (successWrites_keys_nodup dir (o.convert "RGBA"))

/-- Witness for C7 on a filesystem holding a decodable 1024x1024
`dog.png` and no `icons` directory yet. -/
theorem icons_run_twice_idempotent_witness :
    ((runFS "dog.png" "icons"
        ⟨[], [("dog.png", FileData.rawFile (some (Image.mk 1024 1024 "RGB" none)))]⟩).2.outcome =
      Outcome.completed ∧
     "dog.png" ∉ ((runFS "dog.png" "icons"
        ⟨[], [("dog.png", FileData.rawFile (some (Image.mk 1024 1024 "RGB" none)))]⟩).2.writes.map
          Prod.fst)) ∧
    ((runFS "dog.png" "icons" (runFS "dog.png" "icons"
        ⟨[], [("dog.png", FileData.rawFile (some (Image.mk 1024 1024 "RGB" none)))]⟩).1).2.outcome =
      Outcome.completed ∧
     (runFS "dog.png" "icons" (runFS "dog.png" "icons"
        ⟨[], [("dog.png", FileData.rawFile (some (Image.mk 1024 1024 "RGB" none)))]⟩).1).2.writes =
      (runFS "dog.png" "icons"
        ⟨[], [("dog.png", FileData.rawFile (some (Image.mk 1024 1024 "RGB" none)))]⟩).2.writes ∧
     (runFS "dog.png" "icons" (runFS "dog.png" "icons"
        ⟨[], [("dog.png", FileData.rawFile (some (Image.mk 1024 1024 "RGB" none)))]⟩).1).1 =
      (runFS "dog.png" "icons"
        ⟨[], [("dog.png", FileData.rawFile (some (Image.mk 1024 1024 "RGB" none)))]⟩).1) :=
  ⟨⟨by decide, by decide⟩,
   icons_run_twice_idempotent "dog.png" "icons"
     ⟨[], [("dog.png", FileData.rawFile (some (Image.mk 1024 1024 "RGB" none)))]⟩
     (by decide) (by decide)⟩
